import Mathlib

/-
  Verification of the Arturo message-bus protocol specification.

  The repository ships JSON Schemas (draft-07) for five message types, a
  schema-validation test suite, and integration tests for the Redis-backed
  substrate (streams + consumer groups, ACL isolation, TTL presence keys).
  This development embeds the message data model, the schema documents, the
  subset of JSON-Schema semantics they use, and the substrate operations the
  spec requires, and proves the testable properties claimed by the spec.
-/

namespace Arturo

/-! ### JSON values

A JSON document, as consumed by the validator.  Numbers in every Arturo
message are integers (timestamps, byte counts, millisecond durations, RSSI),
so the numeric case carries an `Int`. -/

inductive Json where
  | null
  | bool (b : Bool)
  | int (n : Int)
  | str (s : String)
  | arr (elems : List Json)
  | obj (fields : List (String × Json))

/-- Look up the value of key `k` in an object's field list (first match). -/
def lookupField : List (String × Json) → String → Option Json
  | [], _ => none
  | (k, v) :: fs, key => if k == key then some v else lookupField fs key

/-- The keys appearing in an object's field list. -/
def fieldKeys (fs : List (String × Json)) : List String := fs.map Prod.fst

/-! ### Pattern constraints

Modelled from the spec: the string-pattern constraints the schemas impose
(`id`/`correlation_id` must be version-4 UUIDs, `source.service` must match
`^[a-z][a-z0-9_]*$`, `source.version` strict `MAJOR.MINOR.PATCH`, OTA
`sha256` exactly 64 hex characters, OTA `firmware_url` an http(s) URL). -/

def isLowerHexDigit (c : Char) : Bool :=
  ('0' ≤ c && c ≤ '9') || ('a' ≤ c && c ≤ 'f')

def isLowerAlpha (c : Char) : Bool := 'a' ≤ c && c ≤ 'z'

def isDigitCh (c : Char) : Bool := '0' ≤ c && c ≤ '9'

/-- Consume exactly `n` lowercase hex digits, returning the rest of the input. -/
def takeHex : Nat → List Char → Option (List Char)
  | 0, cs => some cs
  | n + 1, c :: cs => if isLowerHexDigit c then takeHex n cs else none
  | _ + 1, [] => none

/-- Version-4 UUID check: `xxxxxxxx-xxxx-4xxx-yxxx-xxxxxxxxxxxx` with
lowercase hex digits and `y ∈ {8,9,a,b}`. -/
def uuid4Check (s : String) : Bool :=
  match takeHex 8 s.data with
  | some ('-' :: r1) =>
    match takeHex 4 r1 with
    | some ('-' :: '4' :: r2) =>
      match takeHex 3 r2 with
      | some ('-' :: y :: r3) =>
        (y == '8' || y == '9' || y == 'a' || y == 'b') &&
        (match takeHex 3 r3 with
         | some ('-' :: r4) => takeHex 12 r4 == some []
         | _ => false)
      | _ => false
    | _ => false
  | _ => false

/-- Service-name check: `^[a-z][a-z0-9_]*$`. -/
def serviceNameCheck (s : String) : Bool :=
  match s.data with
  | [] => false
  | c :: rest =>
    isLowerAlpha c && rest.all (fun d => isLowerAlpha d || isDigitCh d || d == '_')

/-- Consume one or more decimal digits, returning the rest of the input. -/
def takeDigits1 (cs : List Char) : Option (List Char) :=
  match cs.takeWhile isDigitCh with
  | [] => none
  | _ :: _ => some (cs.dropWhile isDigitCh)

/-- Strict semantic-version check: `MAJOR.MINOR.PATCH`, digits only. -/
def semverCheck (s : String) : Bool :=
  match takeDigits1 s.data with
  | some ('.' :: r1) =>
    match takeDigits1 r1 with
    | some ('.' :: r2) => takeDigits1 r2 == some []
    | _ => false
  | _ => false

/-- OTA image digest check: exactly 64 lowercase hex characters. -/
def sha256Check (s : String) : Bool :=
  s.data.length == 64 && s.data.all isLowerHexDigit

/-- `hasPre p cs` holds when `p` is an initial run of `cs`. -/
def hasPre : List Char → List Char → Bool
  | [], _ => true
  | _ :: _, [] => false
  | p :: ps, c :: cs => p == c && hasPre ps cs

/-- OTA firmware URL check: the URL scheme must be http or https. -/
def httpUrlCheck (s : String) : Bool :=
  hasPre "http://".data s.data || hasPre "https://".data s.data

/-- The named pattern constraints used by the schemas. -/
inductive Pat where
  | uuid4
  | serviceName
  | semver
  | sha256hex
  | httpUrl

/-- Resolve a named pattern to its checker. -/
def patCheck : Pat → String → Bool
  | .uuid4, s => uuid4Check s
  | .serviceName, s => serviceNameCheck s
  | .semver, s => semverCheck s
  | .sha256hex, s => sha256Check s
  | .httpUrl, s => httpUrlCheck s

/-! ### Schema documents

Modelled from the spec: the validator engine consumes JSON Schema draft-07
documents supporting required-field enforcement, type checks, string
patterns, numeric range bounds, closed enumerations,
`additionalProperties: false`, and conditional sub-schemas (if/then/else
with a `not`-`required` else branch).  `Schema` is the fragment of draft-07
the Arturo message schemas use; `PropList` is the `properties` keyword's
map from key to sub-schema. -/

mutual
inductive Schema where
  | anyObject
  | string
  | strPat (p : Pat)
  | strEnum (vs : List String)
  | strOrNull
  | integer (lo : Option Int) (hi : Option Int)
  | boolean
  | arrayOfString
  | object (props : PropList) (req : List String) (addl : Bool)
  | boolFieldEq (k : String) (b : Bool)
  | requiresField (k : String)
  | absentField (k : String)
  | cond (c t e : Schema)
  | conj (a b : Schema)

inductive PropList where
  | nil
  | cons (k : String) (s : Schema) (rest : PropList)
end

/-- The keys declared by a `properties` map. -/
def propKeys : PropList → List String
  | .nil => []
  | .cons k _ rest => k :: propKeys rest

/-- Every required key is present in the field list
(draft-07 `required`; vacuous on non-objects, handled by the caller). -/
def requireAll (fs : List (String × Json)) (req : List String) : Bool :=
  req.all (fun k => (lookupField fs k).isSome)

/-- `additionalProperties: false`: every key of the instance is declared. -/
def keysDeclared (fs : List (String × Json)) (ks : List String) : Bool :=
  fs.all (fun kv => ks.contains kv.1)

/-- Lower range bound (`minimum`), absent means unconstrained. -/
def chkLo : Option Int → Int → Bool
  | none, _ => true
  | some lo, n => lo ≤ n

/-- Upper range bound (`maximum`), absent means unconstrained. -/
def chkHi : Option Int → Int → Bool
  | none, _ => true
  | some hi, n => n ≤ hi

mutual
/-- Modelled from the spec: `validate(document, schema)` — the generic,
referentially transparent validator engine over the draft-07 fragment.
Keywords that only constrain objects (`required`, `properties`,
`if`-with-`required`) pass vacuously on non-objects, as in draft-07;
a `type: object` constraint is part of the `object`/`anyObject` cases. -/
def validate : Json → Schema → Bool
  | .obj _, .anyObject => true
  | _, .anyObject => false
  | .str _, .string => true
  | _, .string => false
  | .str s, .strPat p => patCheck p s
  | _, .strPat _ => false
  | .str s, .strEnum vs => vs.contains s
  | _, .strEnum _ => false
  | .str _, .strOrNull => true
  | .null, .strOrNull => true
  | _, .strOrNull => false
  | .int n, .integer lo hi => chkLo lo n && chkHi hi n
  | _, .integer _ _ => false
  | .bool _, .boolean => true
  | _, .boolean => false
  | .arr es, .arrayOfString => es.all (fun e => match e with | .str _ => true | _ => false)
  | _, .arrayOfString => false
  | .obj fs, .object ps req addl =>
      requireAll fs req && validateProps fs ps && (addl || keysDeclared fs (propKeys ps))
  | _, .object _ _ _ => false
  | .obj fs, .boolFieldEq k b =>
      (match lookupField fs k with
       | some (.bool b') => b' == b
       | some _ => false
       | none => false)
  | _, .boolFieldEq _ _ => true
  | .obj fs, .requiresField k => (lookupField fs k).isSome
  | _, .requiresField _ => true
  | .obj fs, .absentField k => !(lookupField fs k).isSome
  | _, .absentField _ => false
  | j, .cond c t e => if validate j c then validate j t else validate j e
  | j, .conj a b => validate j a && validate j b

/-- Validate the declared properties that are present in the field list
(draft-07 `properties`: absent keys pass; `required` is separate). -/
def validateProps (fs : List (String × Json)) : PropList → Bool
  | .nil => true
  | .cons k s rest =>
      (match lookupField fs k with
       | some v => validate v s
       | none => true) && validateProps fs rest
end

mutual
/-- Every object shape declared anywhere in the schema has
`additionalProperties: false`. -/
def closedEverywhere : Schema → Bool
  | .object ps _ addl => !addl && closedProps ps
  | .cond c t e => closedEverywhere c && closedEverywhere t && closedEverywhere e
  | .conj a b => closedEverywhere a && closedEverywhere b
  | _ => true

/-- `closedEverywhere` over a `properties` map. -/
def closedProps : PropList → Bool
  | .nil => true
  | .cons _ s rest => closedEverywhere s && closedProps rest
end

/-! ### The Arturo message schemas

Modelled from the spec: `schemas/v1.0.0/*.schema.json` are not shipped in
`src/` (only their test suite is), so the six schema documents — the generic
envelope schema, the five message-type schemas, and the shared `error`
component — are reconstructed from the spec's data model (§3), the validator
contract (§4.1), and the constraints the conformance tests exercise. -/

/-- The closed enum of message-type strings. -/
def messageTypes : List String :=
  ["device.command.request", "device.command.response", "service.heartbeat",
   "system.emergency_stop", "system.ota.request"]

/-- The `source` sub-object: service name, instance identifier, semver. -/
def sourceSchema : Schema :=
  .object
    (.cons "service" (.strPat .serviceName)
      (.cons "instance" .string
        (.cons "version" (.strPat .semver) .nil)))
    ["service", "instance", "version"] false

/-- Envelope object schema shared by every message type.  `tyS` constrains
the `type` field; `corr`/`reply` say whether `correlation_id`/`reply_to`
are declared, and if so whether they are required. -/
def envelopeObj (tyS : Schema) (corr reply : Option Bool) : Schema :=
  .object
    (.cons "id" (.strPat .uuid4)
      (.cons "timestamp" (.integer (some 0) none)
        (.cons "source" sourceSchema
          (.cons "schema_version" (.strEnum ["v1.0.0"])
            (.cons "type" tyS
              ((match corr with
                | some _ => PropList.cons "correlation_id" (.strPat .uuid4)
                | none => id)
               ((match reply with
                 | some _ => PropList.cons "reply_to" Schema.string
                 | none => id)
                .nil)))))))
    (["id", "timestamp", "source", "schema_version", "type"] ++
     (if corr = some true then ["correlation_id"] else []) ++
     (if reply = some true then ["reply_to"] else []))
    false

/-- A message schema: envelope plus payload, both required, closed. -/
def msgSchema (env pay : Schema) : Schema :=
  .object (.cons "envelope" env (.cons "payload" pay .nil))
    ["envelope", "payload"] false

/-- The generic envelope schema (`envelope.schema.json`): any of the five
types, optional correlation fields, payload only required to be an object. -/
def envelopeSchema : Schema :=
  msgSchema (envelopeObj (.strEnum messageTypes) (some false) (some false)) .anyObject

/-- The closed enum of command-response error codes. -/
def errorCodes : List String :=
  ["E_DEVICE_TIMEOUT", "E_INVALID_COMMAND", "E_DEVICE_BUSY", "E_INTERNAL"]

/-- The shared `error` component (`error.schema.json`): closed code enum
plus human-readable message. -/
def errorSchema : Schema :=
  .object
    (.cons "code" (.strEnum errorCodes)
      (.cons "message" .string .nil))
    ["code", "message"] false

/-- `device-command-request.schema.json`: request envelope (correlation_id
and reply_to required) and a payload naming the device and command, with
`timeout_ms` bounded to [100, 300000]. -/
def deviceCommandRequestSchema : Schema :=
  msgSchema
    (envelopeObj (.strEnum ["device.command.request"]) (some true) (some true))
    (.object
      (.cons "device_id" .string
        (.cons "command_name" .string
          (.cons "timeout_ms" (.integer (some 100) (some 300000)) .nil)))
      ["device_id", "command_name"] false)

/-- `device-command-response.schema.json`: response envelope (correlation_id
required) and a payload with the success/error conditional: if `success` is
false an `error` object is required, if true `error` must be absent. -/
def deviceCommandResponseSchema : Schema :=
  msgSchema
    (envelopeObj (.strEnum ["device.command.response"]) (some true) none)
    (.conj
      (.object
        (.cons "device_id" .string
          (.cons "command_name" .string
            (.cons "success" .boolean
              (.cons "response" .strOrNull
                (.cons "error" errorSchema
                  (.cons "duration_ms" (.integer (some 0) none) .nil))))))
        ["device_id", "command_name", "success"] false)
      (.cond (.boolFieldEq "success" false)
        (.requiresField "error")
        (.absentField "error")))

/-- `service-heartbeat.schema.json`: heartbeat envelope (no correlation
fields) and a telemetry payload; `wifi_rssi` bounded to [-127, 0]. -/
def serviceHeartbeatSchema : Schema :=
  msgSchema
    (envelopeObj (.strEnum ["service.heartbeat"]) none none)
    (.object
      (.cons "status" (.strEnum ["running", "degraded"])
        (.cons "uptime_seconds" (.integer (some 0) none)
          (.cons "devices" .arrayOfString
            (.cons "free_heap" (.integer (some 0) none)
              (.cons "wifi_rssi" (.integer (some (-127)) (some 0))
                (.cons "firmware_version" (.strPat .semver) .nil))))))
      ["status", "uptime_seconds", "devices", "free_heap", "wifi_rssi",
       "firmware_version"] false)

/-- `system-emergency-stop.schema.json`: e-stop envelope (no correlation
fields) and a payload whose `reason` is a closed enum. -/
def systemEmergencyStopSchema : Schema :=
  msgSchema
    (envelopeObj (.strEnum ["system.emergency_stop"]) none none)
    (.object
      (.cons "reason" (.strEnum ["user_initiated", "hardware_fault", "watchdog_timeout"]) .nil)
      ["reason"] false)

/-- `system-ota-request.schema.json`: OTA request envelope (correlation_id
and reply_to required) and a payload with an http(s) firmware URL, semver
version, and 64-hex-character sha256 digest. -/
def systemOtaRequestSchema : Schema :=
  msgSchema
    (envelopeObj (.strEnum ["system.ota.request"]) (some true) (some true))
    (.object
      (.cons "firmware_url" (.strPat .httpUrl)
        (.cons "version" (.strPat .semver)
          (.cons "sha256" (.strPat .sha256hex) .nil)))
      ["firmware_url", "version", "sha256"] false)

/-- A message is accepted only if it passes both the generic envelope schema
and its type-specific schema. -/
def accepted (m : Json) (typeSchema : Schema) : Bool :=
  validate m envelopeSchema && validate m typeSchema

/-! ### Canonical example messages

Modelled from the spec: each message type requires at least one canonical
example document; these mirror the fixture messages the conformance tests
mutate.  The heartbeat and request examples are parameterised by the fields
the negative tests vary. -/

/-- A heartbeat message with the given envelope `id` and `wifi_rssi`. -/
def heartbeatWith (msgId : String) (rssi : Int) : Json :=
  .obj
    [("envelope", .obj
        [("id", .str msgId),
         ("timestamp", .int 1771329600),
         ("source", .obj
            [("service", .str "esp32_tcp_bridge"),
             ("instance", .str "station-01"),
             ("version", .str "1.0.0")]),
         ("schema_version", .str "v1.0.0"),
         ("type", .str "service.heartbeat")]),
     ("payload", .obj
        [("status", .str "running"),
         ("uptime_seconds", .int 3600),
         ("devices", .arr [.str "fluke-8846a"]),
         ("free_heap", .int 245000),
         ("wifi_rssi", .int rssi),
         ("firmware_version", .str "1.0.0")])]

/-- The canonical heartbeat example. -/
def heartbeatExample : Json :=
  heartbeatWith "a1b2c3d4-e5f6-4a7b-8c9d-0e1f2a3b4c5d" (-42)

/-- A command-request message with the given payload fields. -/
def requestWithPayload (pay : List (String × Json)) : Json :=
  .obj
    [("envelope", .obj
        [("id", .str "a1b2c3d4-e5f6-4a7b-8c9d-0e1f2a3b4c5d"),
         ("timestamp", .int 1771329600),
         ("source", .obj
            [("service", .str "controller"),
             ("instance", .str "ctrl-01"),
             ("version", .str "1.0.0")]),
         ("schema_version", .str "v1.0.0"),
         ("type", .str "device.command.request"),
         ("correlation_id", .str "d4e5f6a7-b8c9-4d0e-a1a2-b3c4d5e6f7a8"),
         ("reply_to", .str "responses:controller:ctrl-01")]),
     ("payload", .obj pay)]

/-- The canonical command-request example. -/
def requestExample : Json :=
  requestWithPayload
    [("device_id", .str "fluke-8846a"),
     ("command_name", .str "measure_dc_voltage")]

/-- A command-request whose payload carries `timeout_ms = n`. -/
def requestWithTimeout (n : Int) : Json :=
  requestWithPayload
    [("device_id", .str "fluke-8846a"),
     ("command_name", .str "measure_dc_voltage"),
     ("timeout_ms", .int n)]

/-- A command-response message with the given correlation id and payload. -/
def responseWith (corrId : String) (pay : List (String × Json)) : Json :=
  .obj
    [("envelope", .obj
        [("id", .str "b1ffc99a-8d1c-4ef9-8c7e-7cc0ce491b22"),
         ("timestamp", .int 1771329665),
         ("source", .obj
            [("service", .str "esp32_tcp_bridge"),
             ("instance", .str "dmm-station-01"),
             ("version", .str "1.0.0")]),
         ("schema_version", .str "v1.0.0"),
         ("type", .str "device.command.response"),
         ("correlation_id", .str corrId)]),
     ("payload", .obj pay)]

/-- The failed-command payload of the canonical response example. -/
def failurePayload : List (String × Json) :=
  [("device_id", .str "fluke-8846a"),
   ("command_name", .str "measure_dc_voltage"),
   ("success", .bool false),
   ("response", .null),
   ("error", .obj
      [("code", .str "E_DEVICE_TIMEOUT"),
       ("message", .str "Device did not respond within 5000ms")]),
   ("duration_ms", .int 5001)]

/-- The canonical command-response example (a failed command). -/
def responseExample : Json :=
  responseWith "d4e5f6a7-b8c9-4d0e-a1a2-b3c4d5e6f7a8" failurePayload

/-- The canonical emergency-stop example. -/
def estopExample : Json :=
  .obj
    [("envelope", .obj
        [("id", .str "a1b2c3d4-e5f6-4a7b-8c9d-0e1f2a3b4c5d"),
         ("timestamp", .int 1771329600),
         ("source", .obj
            [("service", .str "esp32_estop"),
             ("instance", .str "estop-01"),
             ("version", .str "1.0.0")]),
         ("schema_version", .str "v1.0.0"),
         ("type", .str "system.emergency_stop")]),
     ("payload", .obj [("reason", .str "user_initiated")])]

/-- An OTA request with the given sha256 digest and firmware URL. -/
def otaWith (sha url : String) : Json :=
  .obj
    [("envelope", .obj
        [("id", .str "a1b2c3d4-e5f6-4a7b-8c9d-0e1f2a3b4c5d"),
         ("timestamp", .int 1771329600),
         ("source", .obj
            [("service", .str "controller"),
             ("instance", .str "ctrl-01"),
             ("version", .str "1.0.0")]),
         ("schema_version", .str "v1.0.0"),
         ("type", .str "system.ota.request"),
         ("correlation_id", .str "d4e5f6a7-b8c9-4d0e-a1a2-b3c4d5e6f7a8"),
         ("reply_to", .str "responses:controller:ctrl-01")]),
     ("payload", .obj
        [("firmware_url", .str url),
         ("version", .str "1.1.0"),
         ("sha256", .str sha)])]

/-- The canonical OTA-request example. -/
def otaExample : Json :=
  otaWith "a3f2b8c9d4e5f6a7b8c9d0e1f2a3b4c5d6e7f8a9b0c1d2e3f4a5b6c7d8e9f0a1"
    "http://192.168.1.10:8080/firmware/test.bin"

/-! ### Field accessors and mutation helpers

Used to state the negative-case properties: deleting a required field from a
canonical message must make validation fail. -/

/-- `m` is an object with key `k` present at top level. -/
def hasTopField (m : Json) (k : String) : Prop :=
  ∃ fs v, m = .obj fs ∧ lookupField fs k = some v

/-- `m` is an object whose `envelope` field is an object with key `k` present. -/
def hasEnvField (m : Json) (k : String) : Prop :=
  ∃ fs efs v, m = .obj fs ∧ lookupField fs "envelope" = some (.obj efs) ∧
    lookupField efs k = some v

/-- The field list of `m`'s `payload` sub-object, when both exist. -/
def payloadObj (m : Json) : Option (List (String × Json)) :=
  match m with
  | .obj fs =>
    match lookupField fs "payload" with
    | some (.obj pfs) => some pfs
    | _ => none
  | _ => none

/-- Remove every binding of key `k` from a field list. -/
def eraseField (fs : List (String × Json)) (k : String) : List (String × Json) :=
  fs.filter (fun kv => kv.1 != k)

/-- Remove key `k` from a top-level object (identity on non-objects). -/
def eraseTop (m : Json) (k : String) : Json :=
  match m with
  | .obj fs => .obj (eraseField fs k)
  | j => j

/-- Remove key `k` from the `envelope` sub-object of a message. -/
def eraseEnv (m : Json) (k : String) : Json :=
  match m with
  | .obj fs =>
      .obj (fs.map (fun kv => if kv.1 == "envelope" then (kv.1, eraseTop kv.2 k) else kv))
  | j => j

/-- Add a field to a top-level object (identity on non-objects). -/
def addTop (m : Json) (k : String) (v : Json) : Json :=
  match m with
  | .obj fs => .obj (fs ++ [(k, v)])
  | j => j

/-! ### Consumer-group pending bookkeeping

Modelled from the spec: the broker's consumer-group semantics required in §6
— delivery places a message id in the group's pending set, `ack` removes it,
and the pending-count for a group/stream pair is queryable; acknowledging an
already-acknowledged id is a no-op, not an error.  The broker implementation
itself is substrate (not in `src/`, only the integration tests are). -/

structure ConsumerGroup where
  pending : List String

/-- Deliver a message to a consumer of the group: its id becomes pending
(ids are unique per stream entry, so delivery of a pending id is absorbed). -/
def deliver (g : ConsumerGroup) (msgId : String) : ConsumerGroup :=
  if g.pending.contains msgId then g else ⟨g.pending ++ [msgId]⟩

/-- Acknowledge a message id: removes it from the pending set and returns
how many entries were acknowledged (0 when it was not pending — a no-op,
never an error). -/
def xack (g : ConsumerGroup) (msgId : String) : ConsumerGroup × Nat :=
  if g.pending.contains msgId then
    (⟨g.pending.filter (fun i => i != msgId)⟩, 1)
  else (g, 0)

/-- The queryable pending-count of the group. -/
def xpendingCount (g : ConsumerGroup) : Nat := g.pending.length

/-! ### Isolation policy

Modelled from the spec: `authorize(identity, operation, address)` (§4.6) — a
station identity may publish/consume/ack only on its own command stream
`commands:{stationInstance}`, may publish on permitted reply addresses
(`responses:...`), and is never granted administrative operations; deny by
default.  The policy enforcement lives in broker ACL configuration, not in
`src/` (only the integration tests are). -/

inductive BusOp where
  | publish
  | consume
  | ack
  | admin

/-- The per-station command stream address. -/
def commandStream (station : String) : String := "commands:" ++ station

/-- Reply/response addresses a station may publish to. -/
def isResponseAddr (addr : String) : Bool := hasPre "responses:".data addr.data

/-- Modelled from the spec: the static per-identity rule set, fail closed. -/
def authorize (station : String) (op : BusOp) (addr : String) : Bool :=
  match op with
  | .publish => addr == commandStream station || isResponseAddr addr
  | .consume => addr == commandStream station
  | .ack => addr == commandStream station
  | .admin => false

/-! ### Presence tracker

Modelled from the spec: presence keys follow `{service}:{instance}:alive`
with a string status value and a broker-native TTL (§4.4, §6); the tracker
implementation is not in `src/` (only the integration tests are).  The
key-value store records each key's value and optional TTL. -/

structure KvStore where
  entries : List (String × String × Option Nat)

/-- Set key `k` to value `v` with optional TTL, replacing any previous entry. -/
def kvSet (st : KvStore) (k v : String) (ttl : Option Nat) : KvStore :=
  ⟨(k, v, ttl) :: st.entries.filter (fun e => e.1 != k)⟩

/-- Look up a key's value and TTL. -/
def kvLookup (st : KvStore) (k : String) : Option (String × Option Nat) :=
  match st.entries.find? (fun e => e.1 == k) with
  | some (_, v, t) => some (v, t)
  | none => none

/-- The presence key for a service instance. -/
def presenceKey (service inst : String) : String :=
  service ++ ":" ++ inst ++ ":alive"

/-- Modelled from the spec: `announce(stationId, status, ttl)` sets/refreshes
the presence key with the liveness window as a broker-native TTL. -/
def announce (st : KvStore) (service inst status : String) (ttl : Nat) : KvStore :=
  kvSet st (presenceKey service inst) status (some ttl)

/-- Split a character list on `':'` separators. -/
def splitColon : List Char → List (List Char)
  | [] => [[]]
  | c :: rest =>
    if c == ':' then [] :: splitColon rest
    else
      match splitColon rest with
      | [] => [[c]]
      | g :: gs => (c :: g) :: gs

/-- A command-response payload with `success: true` that wrongly retains an
`error` object. -/
def successWithErrorPayload : List (String × Json) :=
  [("device_id", .str "fluke-8846a"),
   ("command_name", .str "measure_dc_voltage"),
   ("success", .bool true),
   ("response", .str "1.23456789"),
   ("error", .obj
      [("code", .str "E_DEVICE_TIMEOUT"),
       ("message", .str "Device did not respond within 5000ms")]),
   ("duration_ms", .int 5001)]

/-- A successful command-response payload: `success: true`, no `error`. -/
def successPayload : List (String × Json) :=
  [("device_id", .str "fluke-8846a"),
   ("command_name", .str "measure_dc_voltage"),
   ("success", .bool true),
   ("response", .str "1.23456789"),
   ("duration_ms", .int 5001)]

/-- The failure payload with its error code replaced by an undeclared code. -/
def badCodePayload : List (String × Json) :=
  [("device_id", .str "fluke-8846a"),
   ("command_name", .str "measure_dc_voltage"),
   ("success", .bool false),
   ("response", .null),
   ("error", .obj
      [("code", .str "E_UNKNOWN_CODE"),
       ("message", .str "Device did not respond within 5000ms")]),
   ("duration_ms", .int 5001)]

/-! ### Shared inversion lemmas for the validator -/

lemma validate_object_inv {j : Json} {ps : PropList} {req : List String} {addl : Bool}
    (h : validate j (.object ps req addl) = true) :
    ∃ fs, j = .obj fs ∧ requireAll fs req = true ∧ validateProps fs ps = true ∧
      (addl = true ∨ keysDeclared fs (propKeys ps) = true) := by
  cases j <;> simp [validate] at h
  case obj fs =>
    refine ⟨fs, rfl, ?_, ?_, ?_⟩ <;> tauto

lemma keysDeclared_subset {fs : List (String × Json)} {ks : List String}
    (h : keysDeclared fs ks = true) : ∀ k ∈ fieldKeys fs, k ∈ ks := by
  intro k hk
  simp only [fieldKeys, List.mem_map] at hk
  obtain ⟨kv, hmem, rfl⟩ := hk
  simp only [keysDeclared, List.all_eq_true] at h
  simpa using h kv hmem

/-! ### C1 — canonical examples pass both schemas -/

/-- C1: every canonical example of the five message types validates against
both the generic envelope schema and its type-specific schema, and a message
is accepted only if it passes both. -/
theorem examples_pass_both_schemas :
    accepted heartbeatExample serviceHeartbeatSchema = true ∧
    accepted requestExample deviceCommandRequestSchema = true ∧
    accepted responseExample deviceCommandResponseSchema = true ∧
    accepted estopExample systemEmergencyStopSchema = true ∧
    accepted otaExample systemOtaRequestSchema = true ∧
    ∀ m s, accepted m s = true →
      validate m envelopeSchema = true ∧ validate m s = true := by
  refine ⟨by decide, by decide, by decide, by decide, by decide, ?_⟩
  intro m s h
  simpa [accepted, Bool.and_eq_true] using h

/-- C1 witness: the acceptance conjunct applied at the heartbeat example. -/
theorem examples_pass_both_schemas_witness :
    accepted heartbeatExample serviceHeartbeatSchema = true ∧
    (validate heartbeatExample envelopeSchema = true ∧
     validate heartbeatExample serviceHeartbeatSchema = true) :=
  ⟨by decide,
   examples_pass_both_schemas.2.2.2.2.2 heartbeatExample serviceHeartbeatSchema
     (by decide)⟩

/-! ### C5 — numeric range bounds -/

/-- C5: `timeout_ms` outside [100, 300000] fails command-request validation,
and `wifi_rssi` outside [-127, 0] fails heartbeat validation while `-42`
is accepted. -/
theorem numeric_range_bounds_enforced :
    validate (requestWithTimeout 50) deviceCommandRequestSchema = false ∧
    validate (requestWithTimeout 500000) deviceCommandRequestSchema = false ∧
    validate (heartbeatWith "a1b2c3d4-e5f6-4a7b-8c9d-0e1f2a3b4c5d" 5)
      serviceHeartbeatSchema = false ∧
    validate (heartbeatWith "a1b2c3d4-e5f6-4a7b-8c9d-0e1f2a3b4c5d" (-200))
      serviceHeartbeatSchema = false ∧
    validate (heartbeatWith "a1b2c3d4-e5f6-4a7b-8c9d-0e1f2a3b4c5d" (-42))
      serviceHeartbeatSchema = true := by
  decide

/-! ### C6 — version-4 UUID pattern -/

/-- C6: envelope `id` and `correlation_id` must be version-4 UUIDs — a
non-UUID string fails, and a well-formed UUID whose version nibble is 1
rather than 4 also fails the pattern check, while the version-4 id of the
canonical example passes. -/
theorem uuid_v4_pattern_enforced :
    validate (heartbeatWith "not-a-uuid" (-42)) serviceHeartbeatSchema = false ∧
    validate (heartbeatWith "a1b2c3d4-e5f6-1a7b-8c9d-0e1f2a3b4c5d" (-42))
      serviceHeartbeatSchema = false ∧
    validate (responseWith "not-a-valid-uuid-at-all" failurePayload)
      deviceCommandResponseSchema = false ∧
    validate (heartbeatWith "a1b2c3d4-e5f6-4a7b-8c9d-0e1f2a3b4c5d" (-42))
      serviceHeartbeatSchema = true := by
  decide

/-! ### C2 — missing required fields fail validation -/

/-- C2: removing any required field — envelope `id`, `timestamp`, `source`,
`type`, the top-level `payload`, or the type-mandated `correlation_id` /
`reply_to` of a command request — makes schema validation fail; equivalently,
any message that validates has all of them present. -/
theorem missing_required_fields_fail :
    validate (eraseEnv heartbeatExample "id") serviceHeartbeatSchema = false ∧
    validate (eraseEnv heartbeatExample "timestamp") serviceHeartbeatSchema = false ∧
    validate (eraseEnv heartbeatExample "source") serviceHeartbeatSchema = false ∧
    validate (eraseEnv heartbeatExample "type") serviceHeartbeatSchema = false ∧
    validate (eraseTop heartbeatExample "payload") serviceHeartbeatSchema = false ∧
    validate (eraseEnv requestExample "correlation_id") deviceCommandRequestSchema = false ∧
    validate (eraseEnv requestExample "reply_to") deviceCommandRequestSchema = false ∧
    (∀ m : Json, validate m serviceHeartbeatSchema = true →
      hasEnvField m "id" ∧ hasEnvField m "timestamp" ∧ hasEnvField m "source" ∧
      hasEnvField m "type" ∧ hasTopField m "payload") ∧
    (∀ m : Json, validate m deviceCommandRequestSchema = true →
      hasEnvField m "correlation_id" ∧ hasEnvField m "reply_to") := by
  refine ⟨by decide, by decide, by decide, by decide, by decide, by decide, by decide,
    ?_, ?_⟩
  · intro m h
    simp only [serviceHeartbeatSchema, msgSchema] at h
    obtain ⟨fs, rfl, hreq, hprops, _⟩ := validate_object_inv h
    simp only [requireAll, List.all_cons, List.all_nil, Bool.and_eq_true, Bool.and_true,
      Option.isSome_iff_exists] at hreq
    obtain ⟨⟨env, henvl⟩, pay, hpayl⟩ := hreq
    simp only [validateProps, henvl, Bool.and_eq_true] at hprops
    have henvv := hprops.1
    simp only [envelopeObj] at henvv
    obtain ⟨efs, heq, hereq, _, _⟩ := validate_object_inv henvv
    subst heq
    simp [requireAll, Option.isSome_iff_exists] at hereq
    obtain ⟨⟨v1, h1⟩, ⟨v2, h2⟩, ⟨v3, h3⟩, ⟨v4, h4⟩, v5, h5⟩ := hereq
    exact ⟨⟨fs, efs, v1, rfl, henvl, h1⟩, ⟨fs, efs, v2, rfl, henvl, h2⟩,
      ⟨fs, efs, v3, rfl, henvl, h3⟩, ⟨fs, efs, v5, rfl, henvl, h5⟩,
      ⟨fs, pay, rfl, hpayl⟩⟩
  · intro m h
    simp only [deviceCommandRequestSchema, msgSchema] at h
    obtain ⟨fs, rfl, hreq, hprops, _⟩ := validate_object_inv h
    simp only [requireAll, List.all_cons, List.all_nil, Bool.and_eq_true, Bool.and_true,
      Option.isSome_iff_exists] at hreq
    obtain ⟨⟨env, henvl⟩, pay, hpayl⟩ := hreq
    simp only [validateProps, henvl, Bool.and_eq_true] at hprops
    have henvv := hprops.1
    simp only [envelopeObj] at henvv
    obtain ⟨efs, heq, hereq, _, _⟩ := validate_object_inv henvv
    subst heq
    simp [requireAll, Option.isSome_iff_exists] at hereq
    obtain ⟨⟨v1, h1⟩, ⟨v2, h2⟩, ⟨v3, h3⟩, ⟨v4, h4⟩, ⟨v5, h5⟩, ⟨v6, h6⟩, v7, h7⟩ := hereq
    exact ⟨⟨fs, efs, v6, rfl, henvl, h6⟩, ⟨fs, efs, v7, rfl, henvl, h7⟩⟩

/-- C2 witness: the two general conjuncts applied at the canonical heartbeat
and command-request examples. -/
theorem missing_required_fields_fail_witness :
    validate heartbeatExample serviceHeartbeatSchema = true ∧
    (hasEnvField heartbeatExample "id" ∧ hasEnvField heartbeatExample "timestamp" ∧
     hasEnvField heartbeatExample "source" ∧ hasEnvField heartbeatExample "type" ∧
     hasTopField heartbeatExample "payload") ∧
    validate requestExample deviceCommandRequestSchema = true ∧
    (hasEnvField requestExample "correlation_id" ∧ hasEnvField requestExample "reply_to") :=
  ⟨by decide,
   missing_required_fields_fail.2.2.2.2.2.2.2.1 heartbeatExample (by decide),
   by decide,
   missing_required_fields_fail.2.2.2.2.2.2.2.2 requestExample (by decide)⟩

/-! ### C3 — success/error conditional on command responses -/

lemma validate_strEnum_inv {j : Json} {vs : List String}
    (h : validate j (.strEnum vs) = true) : ∃ s, j = .str s ∧ s ∈ vs := by
  cases j <;> simp [validate] at h
  case str s => exact ⟨s, rfl, h⟩

lemma validate_string_inv {j : Json} (h : validate j .string = true) :
    ∃ s, j = .str s := by
  cases j <;> simp [validate] at h
  case str s => exact ⟨s, rfl⟩

lemma validate_strPat_inv {j : Json} {p : Pat}
    (h : validate j (.strPat p) = true) : ∃ s, j = .str s ∧ patCheck p s = true := by
  cases j <;> simp [validate] at h
  case str s => exact ⟨s, rfl, h⟩

/-- C3: in any valid device-command-response, if `payload.success` is false
then an `error` object with a `code` from the closed enum and a `message` is
present, and if `success` is true then `error` is absent; concretely, the
failure response without its `error` object, a success response retaining an
`error` object, and a failure response with an undeclared error code all
fail validation, while the success response without `error` passes. -/
theorem response_success_error_conditional (m : Json) (pfs : List (String × Json))
    (h : validate m deviceCommandResponseSchema = true)
    (hp : payloadObj m = some pfs) :
    ((lookupField pfs "success" = some (.bool false) →
      ∃ efs, lookupField pfs "error" = some (.obj efs) ∧
        (∃ c, lookupField efs "code" = some (.str c) ∧ c ∈ errorCodes) ∧
        ∃ msg, lookupField efs "message" = some (.str msg)) ∧
     (lookupField pfs "success" = some (.bool true) →
      lookupField pfs "error" = none)) ∧
    validate (responseWith "d4e5f6a7-b8c9-4d0e-a1a2-b3c4d5e6f7a8"
      (eraseField failurePayload "error")) deviceCommandResponseSchema = false ∧
    validate (responseWith "d4e5f6a7-b8c9-4d0e-a1a2-b3c4d5e6f7a8"
      successWithErrorPayload) deviceCommandResponseSchema = false ∧
    validate (responseWith "d4e5f6a7-b8c9-4d0e-a1a2-b3c4d5e6f7a8"
      badCodePayload) deviceCommandResponseSchema = false ∧
    validate (responseWith "d4e5f6a7-b8c9-4d0e-a1a2-b3c4d5e6f7a8"
      successPayload) deviceCommandResponseSchema = true := by
  refine ⟨?_, by decide, by decide, by decide, by decide⟩
  simp only [deviceCommandResponseSchema, msgSchema] at h
  obtain ⟨fs, rfl, hreq, hprops, _⟩ := validate_object_inv h
  simp only [requireAll, List.all_cons, List.all_nil, Bool.and_eq_true, Bool.and_true,
    Option.isSome_iff_exists] at hreq
  obtain ⟨⟨env, henvl⟩, pay, hpayl⟩ := hreq
  simp only [payloadObj, hpayl] at hp
  have hpay : pay = .obj pfs := by
    cases pay <;> simp at hp
    case obj pfs2 => simpa using congrArg Json.obj hp
  subst hpay
  simp only [validateProps, henvl, hpayl, Bool.and_eq_true] at hprops
  have hpayv := hprops.2.1
  simp only [validate, Bool.and_eq_true] at hpayv
  obtain ⟨⟨⟨hreq2, hprops2⟩, hdecl⟩, hcond⟩ := hpayv
  constructor
  · intro hsucc
    simp only [validate, hsucc] at hcond
    norm_num at hcond
    obtain ⟨e, he⟩ := Option.isSome_iff_exists.mp hcond
    simp only [validateProps, Bool.and_eq_true] at hprops2
    have herr := hprops2.2.2.2.2.1
    simp only [he] at herr
    obtain ⟨efs, heeq, hereq, heprops, _⟩ := validate_object_inv herr
    subst heeq
    simp only [requireAll, List.all_cons, List.all_nil, Bool.and_eq_true, Bool.and_true,
      Option.isSome_iff_exists] at hereq
    obtain ⟨⟨cv, hcv⟩, mv, hmv⟩ := hereq
    simp only [validateProps, hcv, hmv, Bool.and_eq_true] at heprops
    obtain ⟨c, rfl, hcmem⟩ := validate_strEnum_inv heprops.1
    obtain ⟨ms, rfl⟩ := validate_string_inv heprops.2.1
    exact ⟨efs, he, ⟨c, hcv, hcmem⟩, ms, hmv⟩
  · intro hsucc
    simp only [validate, hsucc] at hcond
    norm_num at hcond
    exact Option.not_isSome_iff_eq_none.mp (by simpa using hcond)

/-- C3 witness: the conditional characterization applied at the canonical
failure response and its concrete payload. -/
theorem response_success_error_conditional_witness :
    validate responseExample deviceCommandResponseSchema = true ∧
    payloadObj responseExample = some failurePayload ∧
    ((lookupField failurePayload "success" = some (.bool false) →
      ∃ efs, lookupField failurePayload "error" = some (.obj efs) ∧
        (∃ c, lookupField efs "code" = some (.str c) ∧ c ∈ errorCodes) ∧
        ∃ msg, lookupField efs "message" = some (.str msg)) ∧
     (lookupField failurePayload "success" = some (.bool true) →
      lookupField failurePayload "error" = none)) :=
  ⟨by decide, by rfl,
   (response_success_error_conditional responseExample failurePayload
     (by decide) (by rfl)).1⟩

/-! ### C4 — additionalProperties: false at every object level -/

/-- C4: every message schema declares `additionalProperties: false` at every
object level, so any valid message carries only declared keys at the top
level, inside `envelope`, inside `source`, and inside `payload`; concretely,
adding an undeclared top-level key to the canonical heartbeat makes
validation fail. -/
theorem additional_properties_closed (m : Json)
    (h : validate m serviceHeartbeatSchema = true) :
    (∀ fs, m = .obj fs →
      (∀ k ∈ fieldKeys fs, k ∈ ["envelope", "payload"]) ∧
      (∀ efs, lookupField fs "envelope" = some (.obj efs) →
        (∀ k ∈ fieldKeys efs, k ∈ ["id", "timestamp", "source", "schema_version", "type"]) ∧
        ∀ sfs, lookupField efs "source" = some (.obj sfs) →
          ∀ k ∈ fieldKeys sfs, k ∈ ["service", "instance", "version"]) ∧
      (∀ pfs, lookupField fs "payload" = some (.obj pfs) →
        ∀ k ∈ fieldKeys pfs,
          k ∈ ["status", "uptime_seconds", "devices", "free_heap", "wifi_rssi",
               "firmware_version"])) ∧
    (closedEverywhere envelopeSchema = true ∧
     closedEverywhere deviceCommandRequestSchema = true ∧
     closedEverywhere deviceCommandResponseSchema = true ∧
     closedEverywhere serviceHeartbeatSchema = true ∧
     closedEverywhere systemEmergencyStopSchema = true ∧
     closedEverywhere systemOtaRequestSchema = true) ∧
    validate (addTop heartbeatExample "extra_field" (.str "x"))
      serviceHeartbeatSchema = false := by
  refine ⟨?_, by decide, by decide⟩
  simp only [serviceHeartbeatSchema, msgSchema] at h
  obtain ⟨fs, rfl, hreq, hprops, hc⟩ := validate_object_inv h
  have hcl := Or.resolve_left hc (by decide)
  intro fs2 heq
  have : fs2 = fs := by simpa using heq.symm
  subst this
  refine ⟨?_, ?_, ?_⟩
  · intro k hk
    simpa [propKeys] using keysDeclared_subset hcl k hk
  · intro efs hefs
    simp only [validateProps, hefs, Bool.and_eq_true] at hprops
    have henvv := hprops.1
    simp only [envelopeObj] at henvv
    obtain ⟨efs2, heq2, hereq, heprops, hec⟩ := validate_object_inv henvv
    have : efs2 = efs := by simpa using heq2.symm
    subst this
    have hecl := Or.resolve_left hec (by decide)
    constructor
    · intro k hk
      simpa [propKeys] using keysDeclared_subset hecl k hk
    · intro sfs hsfs
      simp only [validateProps, hsfs, Bool.and_eq_true] at heprops
      have hsrc := heprops.2.2.1
      simp only [sourceSchema] at hsrc
      obtain ⟨sfs2, heq3, _, _, hsc⟩ := validate_object_inv hsrc
      have : sfs2 = sfs := by simpa using heq3.symm
      subst this
      have hscl := Or.resolve_left hsc (by decide)
      intro k hk
      simpa [propKeys] using keysDeclared_subset hscl k hk
  · intro pfs hpfs
    simp only [validateProps, hpfs, Bool.and_eq_true] at hprops
    have hpayv := hprops.2.1
    obtain ⟨pfs2, heq4, _, _, hpc⟩ := validate_object_inv hpayv
    have : pfs2 = pfs := by simpa using heq4.symm
    subst this
    have hpcl := Or.resolve_left hpc (by decide)
    intro k hk
    simpa [propKeys] using keysDeclared_subset hpcl k hk

/-- C4 witness: the key-closure characterization applied at the canonical
heartbeat example. -/
theorem additional_properties_closed_witness :
    validate heartbeatExample serviceHeartbeatSchema = true ∧
    (closedEverywhere serviceHeartbeatSchema = true ∧
     validate (addTop heartbeatExample "extra_field" (.str "x"))
       serviceHeartbeatSchema = false) :=
  ⟨by decide,
   ((additional_properties_closed heartbeatExample (by decide)).2.1.2.2.2.1),
   ((additional_properties_closed heartbeatExample (by decide)).2.2)⟩

/-! ### C10 — OTA sha256 and firmware_url constraints -/

/-- C10: a valid system-ota-request carries a `sha256` of exactly 64 hex
characters and a `firmware_url` with scheme http or https; concretely, a
short sha256 and an ftp URL each fail validation. -/
theorem ota_sha256_and_url_enforced (m : Json) (pfs : List (String × Json))
    (h : validate m systemOtaRequestSchema = true)
    (hp : payloadObj m = some pfs) :
    ((∃ s, lookupField pfs "sha256" = some (.str s) ∧ s.data.length = 64 ∧
        ∀ c ∈ s.data, isLowerHexDigit c = true) ∧
     (∃ u, lookupField pfs "firmware_url" = some (.str u) ∧
        (hasPre "http://".data u.data = true ∨ hasPre "https://".data u.data = true))) ∧
    validate (otaWith "tooshort" "http://192.168.1.10:8080/firmware/test.bin")
      systemOtaRequestSchema = false ∧
    validate (otaWith "a3f2b8c9d4e5f6a7b8c9d0e1f2a3b4c5d6e7f8a9b0c1d2e3f4a5b6c7d8e9f0a1"
      "ftp://192.168.1.10/firmware/test.bin") systemOtaRequestSchema = false := by
  refine ⟨?_, by decide, by decide⟩
  simp only [systemOtaRequestSchema, msgSchema] at h
  obtain ⟨fs, rfl, hreq, hprops, _⟩ := validate_object_inv h
  simp only [requireAll, List.all_cons, List.all_nil, Bool.and_eq_true, Bool.and_true,
    Option.isSome_iff_exists] at hreq
  obtain ⟨⟨env, henvl⟩, pay, hpayl⟩ := hreq
  simp only [payloadObj, hpayl] at hp
  have hpay : pay = .obj pfs := by
    cases pay <;> simp at hp
    case obj pfs2 => simpa using congrArg Json.obj hp
  subst hpay
  simp only [validateProps, henvl, hpayl, Bool.and_eq_true] at hprops
  have hpayv := hprops.2.1
  obtain ⟨pfs2, heq, hreq2, hprops2, _⟩ := validate_object_inv hpayv
  have : pfs2 = pfs := by simpa using heq.symm
  subst this
  simp only [requireAll, List.all_cons, List.all_nil, Bool.and_eq_true, Bool.and_true,
    Option.isSome_iff_exists] at hreq2
  obtain ⟨⟨uv, huv⟩, ⟨vv, hvv⟩, sv, hsv⟩ := hreq2
  simp only [validateProps, huv, hvv, hsv, Bool.and_eq_true] at hprops2
  obtain ⟨u, rfl, hu⟩ := validate_strPat_inv hprops2.1
  obtain ⟨s, rfl, hs⟩ := validate_strPat_inv hprops2.2.2.1
  simp only [patCheck, sha256Check, Bool.and_eq_true, beq_iff_eq,
    List.all_eq_true] at hs
  simp only [patCheck, httpUrlCheck, Bool.or_eq_true] at hu
  exact ⟨⟨s, hsv, hs.1, hs.2⟩, ⟨u, huv, hu⟩⟩

/-- C10 witness: the sha256/url characterization applied at the canonical
OTA example and its concrete payload. -/
theorem ota_sha256_and_url_enforced_witness :
    validate otaExample systemOtaRequestSchema = true ∧
    ((∃ s, lookupField
        [("firmware_url", Json.str "http://192.168.1.10:8080/firmware/test.bin"),
         ("version", Json.str "1.1.0"),
         ("sha256", Json.str
           "a3f2b8c9d4e5f6a7b8c9d0e1f2a3b4c5d6e7f8a9b0c1d2e3f4a5b6c7d8e9f0a1")]
        "sha256" = some (.str s) ∧ s.data.length = 64 ∧
        ∀ c ∈ s.data, isLowerHexDigit c = true) ∧
     (∃ u, lookupField
        [("firmware_url", Json.str "http://192.168.1.10:8080/firmware/test.bin"),
         ("version", Json.str "1.1.0"),
         ("sha256", Json.str
           "a3f2b8c9d4e5f6a7b8c9d0e1f2a3b4c5d6e7f8a9b0c1d2e3f4a5b6c7d8e9f0a1")]
        "firmware_url" = some (.str u) ∧
        (hasPre "http://".data u.data = true ∨ hasPre "https://".data u.data = true))) :=
  ⟨by decide,
   (ota_sha256_and_url_enforced otaExample _ (by decide) (by rfl)).1⟩

/-! ### C7 — acknowledgment removes from pending and is idempotent -/

/-- C7: delivering a message puts its id in the consumer group's pending set
(pending-count 1); acknowledging it removes it (pending-count 0); and
acknowledging the same id a second time is an idempotent no-op — the state
is unchanged, zero entries are acknowledged, and no error is possible. -/
theorem ack_removes_pending_and_is_idempotent :
    (∀ i : String,
      xpendingCount (deliver ⟨[]⟩ i) = 1 ∧
      xpendingCount (xack (deliver ⟨[]⟩ i) i).1 = 0) ∧
    (∀ (g : ConsumerGroup) (i : String),
      xack (xack g i).1 i = ((xack g i).1, 0)) ∧
    (∀ (g : ConsumerGroup) (i : String),
      xpendingCount (xack (xack g i).1 i).1 = xpendingCount (xack g i).1) := by
  have key : ∀ (g : ConsumerGroup) (i : String),
      xack (xack g i).1 i = ((xack g i).1, 0) := by
    intro g i
    by_cases hc : i ∈ g.pending
    · have hnc : i ∉ g.pending.filter (fun x => x != i) := by
        simp [List.mem_filter]
      simp [xack, hc, hnc]
    · simp [xack, hc]
  exact ⟨fun i => by simp [deliver, xack, xpendingCount], key,
    fun g i => by rw [key]⟩

/-! ### C8 — per-station isolation -/

lemma commandStream_inj {a b : String} (h : commandStream a = commandStream b) :
    a = b := by
  have hd := congrArg String.data h
  simp only [commandStream, String.data_append] at hd
  exact String.ext (List.append_cancel_left hd)

/-- C8: a station-scoped identity may consume its own command stream
`commands:{stationInstance}`, is denied consume on any other station's
command stream, and is denied every administrative operation. -/
theorem station_isolation (s t : String) (hne : s ≠ t) :
    authorize s .consume (commandStream s) = true ∧
    authorize s .consume (commandStream t) = false ∧
    ∀ a, authorize s .admin a = false := by
  have hst : commandStream t ≠ commandStream s := fun h => hne (commandStream_inj h).symm
  refine ⟨by simp [authorize], ?_, fun a => rfl⟩
  simp [authorize, hst]

/-- C8 witness: the isolation rule at two concrete station instances. -/
theorem station_isolation_witness :
    ("station-01" : String) ≠ "station-02" ∧
    authorize "station-01" .consume (commandStream "station-01") = true ∧
    authorize "station-01" .consume (commandStream "station-02") = false ∧
    authorize "station-01" .admin "config" = false :=
  ⟨by decide,
   (station_isolation "station-01" "station-02" (by decide)).1,
   (station_isolation "station-01" "station-02" (by decide)).2.1,
   (station_isolation "station-01" "station-02" (by decide)).2.2 "config"⟩

/-! ### C9 — presence key format, value and TTL -/

lemma splitColon_append {a : List Char} (ha : ∀ c ∈ a, c ≠ ':') (rest : List Char) :
    splitColon (a ++ ':' :: rest) = a :: splitColon rest := by
  induction a with
  | nil => simp [splitColon]
  | cons c cs ih =>
    have hc : (c == ':') = false := by
      simpa using ha c (by simp)
    have ih' := ih (fun d hd => ha d (by simp [hd]))
    simp [splitColon, hc, ih']

/-- C9: announcing presence writes the key `{service}:{instance}:alive` —
splitting the key on `':'` yields the service name first, then the instance,
then the literal suffix `alive` — and the key carries the string status
value together with the broker-native TTL. -/
theorem presence_key_format (st : KvStore) (svc inst status : String) (ttl : Nat)
    (h1 : ∀ c ∈ svc.data, c ≠ ':') (h2 : ∀ c ∈ inst.data, c ≠ ':') :
    kvLookup (announce st svc inst status ttl) (presenceKey svc inst) =
      some (status, some ttl) ∧
    splitColon (presenceKey svc inst).data = [svc.data, inst.data, "alive".data] := by
  constructor
  · simp [kvLookup, kvSet, announce]
  · have hdata : (presenceKey svc inst).data =
        svc.data ++ ':' :: (inst.data ++ ':' :: "alive".data) := by
      simp [presenceKey, String.data_append]
    rw [hdata, splitColon_append h1, splitColon_append h2]
    rfl

/-- C9 witness: the presence-key property at a concrete service instance. -/
theorem presence_key_format_witness :
    (∀ c ∈ ("esp32_tcp_bridge" : String).data, c ≠ ':') ∧
    (∀ c ∈ ("station-01" : String).data, c ≠ ':') ∧
    (kvLookup (announce ⟨[]⟩ "esp32_tcp_bridge" "station-01" "running" 90)
       (presenceKey "esp32_tcp_bridge" "station-01") = some ("running", some 90) ∧
     splitColon (presenceKey "esp32_tcp_bridge" "station-01").data =
       [("esp32_tcp_bridge" : String).data, ("station-01" : String).data,
        ("alive" : String).data]) :=
  ⟨by decide, by decide,
   presence_key_format ⟨[]⟩ "esp32_tcp_bridge" "station-01" "running" 90
     (by decide) (by decide)⟩

end Arturo
